import Mathlib

/- Verification of the MDRATE reporting function (function_app.py).
   The Python module is shallowly embedded: JSON-ish dynamic values become the
   inductive type PyVal, dictionaries become association lists, and the two
   outbound HTTP interactions (token acquisition, data queries) become explicit
   outcome parameters, so the handler is a pure function of its environment and
   of the responses it would receive. -/

namespace MDRate

/-- Dynamic (JSON-ish) Python value as it appears in the OData payloads:
`None`, `bool`, `int`, `str`, or a nested object (`dict`). -/
inductive PyVal where
  | none
  | bool (b : Bool)
  | int (n : Int)
  | str (s : String)
  | dict (entries : List (String × PyVal))

/-- A Python dict with string keys, as an association list (first key wins). -/
abbrev Dict := List (String × PyVal)

/-- Lookup in a dict: `d[k]` when present. -/
def dictFind? : Dict → String → Option PyVal
  | [], _ => Option.none
  | (k, v) :: rest, key => if k = key then some v else dictFind? rest key

/-- Python `d.get(key)` (default `None`). -/
def dictGet (d : Dict) (key : String) : PyVal := (dictFind? d key).getD .none

/-- Python `d.get(key, dflt)`. -/
def dictGetD (d : Dict) (key : String) (dflt : PyVal) : PyVal :=
  (dictFind? d key).getD dflt

/-- Python truthiness test (`not val` is its negation). -/
def pyIsFalsy : PyVal → Bool
  | .none => true
  | .bool b => !b
  | .int n => n == 0
  | .str s => s == ""
  | .dict d => d.isEmpty

def pyIsNone : PyVal → Bool
  | .none => true
  | _ => false

/-- Python `val == n` for an int literal `n` (True == 1, no str/int equality). -/
def pyEqInt : PyVal → Int → Bool
  | .int m, n => m == n
  | .bool b, n => (if b then (1 : Int) else 0) == n
  | _, _ => false

/-- Python `val == ""` (only a string can equal a string). -/
def pyEqEmptyStr : PyVal → Bool
  | .str s => s == ""
  | _ => false

mutual

/-- Python `repr(val)`, to the extent the embedded values need it (string
escaping inside reprs is not modelled; no claim exercises it). -/
def pyRepr : PyVal → String
  | .none => "None"
  | .bool true => "True"
  | .bool false => "False"
  | .int n => toString n
  | .str s => "\x27" ++ s ++ "\x27"
  | .dict d => "\x7b" ++ String.intercalate ", " (pyReprEntries d) ++ "\x7d"

def pyReprEntries : List (String × PyVal) → List String
  | [] => []
  | (k, v) :: rest => ("\x27" ++ k ++ "\x27: " ++ pyRepr v) :: pyReprEntries rest

end

/-- Python `str(val)`: identity on strings, `repr` otherwise. -/
def pyToString : PyVal → String
  | .str s => s
  | v => pyRepr v

/-- The whitespace characters stripped by Python `str.strip()`
(space, tab, LF, CR, VT, FF; non-ASCII whitespace is not modelled). -/
def pySpaceChars : List Char :=
  [' ', Char.ofNat 9, Char.ofNat 10, Char.ofNat 13, Char.ofNat 11, Char.ofNat 12]

/-- Strip the characters of `strip` from both ends of a character list. -/
def stripEnds (strip : List Char) (cs : List Char) : List Char :=
  ((cs.dropWhile (strip.contains ·)).reverse.dropWhile (strip.contains ·)).reverse

/-- Python `s.strip()`. -/
def pyStrip (s : String) : String := String.mk (stripEnds pySpaceChars s.toList)

/-- Python `s.split(sep)` for a one-character separator (structural recursion,
so proofs can evaluate it; `"".split(";") = [""]`, empty segments kept). -/
def splitCharAux (sep : Char) : List Char → List Char → List (List Char)
  | [], acc => [acc.reverse]
  | c :: cs, acc =>
      if c = sep then acc.reverse :: splitCharAux sep cs []
      else splitCharAux sep cs (c :: acc)

def pySplit (sep : Char) (s : String) : List String :=
  (splitCharAux sep s.toList []).map String.mk

/-- Python `s.endswith(suffix)`. -/
def pyEndsWith (s suffix : String) : Bool :=
  suffix.toList.isSuffixOf s.toList

/-- Replace every (leftmost, non-overlapping) occurrence of `pat`; the fuel is
the input length, enough since each step consumes at least one character. -/
def replaceFuel (pat repl : List Char) : Nat → List Char → List Char
  | 0, cs => cs
  | _ + 1, [] => []
  | n + 1, c :: cs =>
      if pat.isPrefixOf (c :: cs) ∧ pat ≠ [] then
        repl ++ replaceFuel pat repl n ((c :: cs).drop pat.length)
      else c :: replaceFuel pat repl n cs

/-- Python `s.replace(pat, repl)` (the source only calls it with a non-empty
pattern, so the empty-pattern interleaving behaviour is not modelled). -/
def pyReplace (s pat repl : String) : String :=
  if pat = "" then s
  else String.mk (replaceFuel pat.toList repl.toList s.toList.length s.toList)

/- ----------------- function_app.py helpers ----------------- -/

/-- `fmt_cell(val)` (the `na` parameter is always left at its default `"NA"`):
`None`/`""` become `"NA"`, booleans `"Yes"`/`"No"`, everything else `str(val)`. -/
def fmt_cell (val : PyVal) : String :=
  if pyIsNone val || pyEqEmptyStr val then "NA"
  else match val with
    | .bool b => if b then "Yes" else "No"
    | .int n => toString n
    | v => pyToString v

/-- The formatted-value annotation key for a field. -/
def fmtKey (field : String) : String :=
  field ++ "@OData.Community.Display.V1.FormattedValue"

/-- `get_value(obj, field)`: empty string for a falsy (empty) dict; otherwise the
formatted-value annotation when present and not `None`/`""`; otherwise
`obj.get(field, "")`. -/
def get_value (obj : Dict) (field : String) : PyVal :=
  if obj.isEmpty then .str ""
  else match dictFind? obj (fmtKey field) with
    | some v =>
        if !(pyIsNone v) && !(pyEqEmptyStr v) then v else dictGetD obj field (.str "")
    | Option.none => dictGetD obj field (.str "")

def isHexChar (c : Char) : Bool :=
  c.isDigit || ('a' ≤ c && c ≤ 'f') || ('A' ≤ c && c ≤ 'F')

/-- Consume exactly `n` hex digits, returning the remainder. -/
def matchHexChunk : Nat → List Char → Option (List Char)
  | 0, cs => some cs
  | _ + 1, [] => Option.none
  | n + 1, c :: cs => if isHexChar c then matchHexChunk n cs else Option.none

def matchDash : List Char → Option (List Char)
  | c :: cs => if c = '-' then some cs else Option.none
  | [] => Option.none

/-- Does the 8-4-4-4-12 hex GUID pattern match at the head of `cs`? -/
def matchGuidAt (cs : List Char) : Bool :=
  (do
    let r1 ← matchHexChunk 8 cs
    let r2 ← matchDash r1
    let r3 ← matchHexChunk 4 r2
    let r4 ← matchDash r3
    let r5 ← matchHexChunk 4 r4
    let r6 ← matchDash r5
    let r7 ← matchHexChunk 4 r6
    let r8 ← matchDash r7
    let _ ← matchHexChunk 12 r8
    pure ()).isSome

/-- `re.search` for the GUID pattern: leftmost match (36 characters). -/
def searchGuid : List Char → Option String
  | [] => Option.none
  | c :: cs =>
      if matchGuidAt (c :: cs) then some (String.mk ((c :: cs).take 36))
      else searchGuid cs

/-- The characters stripped by `.strip("{}")`. -/
def braceChars : List Char := [Char.ofNat 123, Char.ofNat 125]

/-- `sanitize_guid(g)`: `""` for falsy input; else strip whitespace and braces
and return the first GUID-pattern match, falling back to the stripped string. -/
def sanitize_guid (g : PyVal) : String :=
  if pyIsFalsy g then ""
  else
    let s := String.mk (stripEnds pySpaceChars
      (stripEnds braceChars (stripEnds pySpaceChars (pyToString g).toList)))
    match searchGuid s.toList with
    | some m => m
    | Option.none => s

/-- `normalize_multichoice(value)`: falsy values are returned as-is; otherwise
split on `;`, strip each part, drop empties, join with `", "`. -/
def normalize_multichoice (value : PyVal) : PyVal :=
  if pyIsFalsy value then value
  else
    .str (String.intercalate ", "
      (((pySplit ';' (pyToString value)).map pyStrip).filter (fun p => p != "")))

/- ----------------- datetime embedding ----------------- -/

/-- A wall-clock `datetime` (microseconds are not modelled: the code zeroes or
never renders them). -/
structure PDateTime where
  year : Nat
  month : Nat
  day : Nat
  hour : Nat
  minute : Nat
  second : Nat
deriving DecidableEq, Repr

def pad2 (n : Nat) : String := if n < 10 then "0" ++ toString n else toString n

def pad4 (n : Nat) : String :=
  if n < 10 then "000" ++ toString n
  else if n < 100 then "00" ++ toString n
  else if n < 1000 then "0" ++ toString n
  else toString n

/-- `strftime("%Y-%m-%dT%H:%M:%SZ")`. -/
def strftimeZ (d : PDateTime) : String :=
  pad4 d.year ++ "-" ++ pad2 d.month ++ "-" ++ pad2 d.day ++ "T" ++
  pad2 d.hour ++ ":" ++ pad2 d.minute ++ ":" ++ pad2 d.second ++ "Z"

/-- `last_month_bounds_utc(now_utc)`: `replace(day=1, hour=0, minute=0, second=0)`
then step the month back (December of the previous year when in January), and
serialize both bounds.  (`datetime.replace` would reject year 0; the embedding is
total, and the theorems are stated for calendar-valid instants.) -/
def last_month_bounds_utc (now_utc : PDateTime) : String × String :=
  let this_month_start : PDateTime :=
    { now_utc with day := 1, hour := 0, minute := 0, second := 0 }
  let last_start :=
    if this_month_start.month = 1 then
      { this_month_start with year := this_month_start.year - 1, month := 12 }
    else
      { this_month_start with month := this_month_start.month - 1 }
  let last_end := this_month_start
  (strftimeZ last_start, strftimeZ last_end)

/-- Days since 1970-01-01 of a civil date (proleptic Gregorian). -/
def daysFromCivil (y m d : Int) : Int :=
  let y' := if m ≤ 2 then y - 1 else y
  let era := Int.fdiv y' 400
  let yoe := y' - era * 400
  let mp := Int.fmod (m + 9) 12
  let doy := Int.fdiv (153 * mp + 2) 5 + d - 1
  let doe := yoe * 365 + Int.fdiv yoe 4 - Int.fdiv yoe 100 + doy
  era * 146097 + doe - 719468

/-- Civil date (year, month, day) of a day count since 1970-01-01. -/
def civilFromDays (z0 : Int) : Int × Int × Int :=
  let z := z0 + 719468
  let era := Int.fdiv z 146097
  let doe := z - era * 146097
  let yoe := Int.fdiv (doe - Int.fdiv doe 1460 + Int.fdiv doe 36524 - Int.fdiv doe 146096) 365
  let y := yoe + era * 400
  let doy := doe - (365 * yoe + Int.fdiv yoe 4 - Int.fdiv yoe 100)
  let mp := Int.fdiv (5 * doy + 2) 153
  let d := doy - Int.fdiv (153 * mp + 2) 5 + 1
  let m := if mp < 10 then mp + 3 else mp - 9
  (if m ≤ 2 then y + 1 else y, m, d)

/-- Absolute minutes since the epoch of a wall-clock time read as UTC. -/
def toAbsMinutes (d : PDateTime) : Int :=
  daysFromCivil (d.year : Int) (d.month : Int) (d.day : Int) * 1440 +
    (d.hour : Int) * 60 + (d.minute : Int)

/-- Wall-clock time of an absolute minute count (seconds carried through:
zone offsets are whole minutes). -/
def fromAbsMinutes (mins : Int) (sec : Nat) : PDateTime :=
  let days := Int.fdiv mins 1440
  let rem := (Int.fmod mins 1440).toNat
  let c := civilFromDays days
  { year := c.1.toNat, month := c.2.1.toNat, day := c.2.2.toNat,
    hour := rem / 60, minute := rem % 60, second := sec }

/-- A `tzinfo`: UTC offset in minutes as a function of the absolute instant
(ZoneInfo offsets depend on the instant; fixed offsets are constant). -/
abbrev Tz := Int → Int

/-- The last-resort `_FixedOffset` class: constant offset, no DST. -/
def fixedOffsetTz (minutes : Int) : Tz := fun _ => minutes

/-- `_load_calgary_tz()`: `zoneinfo.ZoneInfo("America/Edmonton")` when that
library and the tz database are available, else `dateutil.tz.gettz`, else the
fixed UTC-7 offset.  Availability of the two libraries is a parameter. -/
def load_calgary_tz (zoneinfoTz dateutilTz : Option Tz) : Tz :=
  match zoneinfoTz with
  | some tz => tz
  | Option.none =>
    match dateutilTz with
    | some tz => tz
    | Option.none => fixedOffsetTz (-(7 * 60))

/-- `dt.astimezone(tz)` for an aware `dt` whose own UTC offset is `off`
minutes: locate the absolute instant, then read it in `tz`. -/
def astimezone (d : PDateTime) (off : Int) (tz : Tz) : PDateTime :=
  let inst := toAbsMinutes d - off
  fromAbsMinutes (inst + tz inst) d.second

/-- `strftime("%m/%d/%Y %I:%M %p")`. -/
def strftimeAmPm (d : PDateTime) : String :=
  let h12 := if d.hour % 12 = 0 then 12 else d.hour % 12
  pad2 d.month ++ "/" ++ pad2 d.day ++ "/" ++ pad4 d.year ++ " " ++
  pad2 h12 ++ ":" ++ pad2 d.minute ++ " " ++ (if d.hour < 12 then "AM" else "PM")

/-- `datetime.fromisoformat` as an oracle: a wall-clock time plus the parsed
UTC offset in minutes (`none` when the string carried no offset, i.e. naive;
the outer `none` is a raised `ValueError`). -/
abbrev IsoParse := String → Option (PDateTime × Option Int)

/-- The dynamic input of `utc_to_calgary_str`: a string, a `datetime` (with its
optional fixed UTC offset), or any other Python value. -/
inductive DtInput where
  | str (s : String)
  | dt (wall : PDateTime) (off : Option Int)
  | py (v : PyVal)

def dtIsFalsy : DtInput → Bool
  | .str s => s == ""
  | .dt _ _ => false
  | .py v => pyIsFalsy v

/-- How a JSON-derived field value enters `utc_to_calgary_str`. -/
def dtInputOfPy : PyVal → DtInput
  | .str s => .str s
  | v => .py v

/-- `utc_to_calgary_str(dt_val)`: falsy input becomes "NA"; a string is
stripped, parsed (with `Z` rewritten to `+00:00` when it ends in `Z`), and on
parse failure the STRIPPED string is returned; a parsed or passed-in naive
value is tagged UTC (`off.getD 0`; in the `Z` branch `fromisoformat` always
returns an aware value for strings it accepts); the instant is then rendered
in the target zone; any other value becomes `str(dt_val)`. -/
def utc_to_calgary_str (parseIso : IsoParse) (tz : Tz) (dt_val : DtInput) : String :=
  if dtIsFalsy dt_val then "NA"
  else match dt_val with
    | .str s0 =>
        let s := pyStrip s0
        let parsed :=
          if pyEndsWith s "Z" then parseIso (pyReplace s "Z" "+00:00") else parseIso s
        match parsed with
        | Option.none => s
        | some (d, off) => strftimeAmPm (astimezone d (off.getD 0) tz)
    | .dt wall off => strftimeAmPm (astimezone wall (off.getD 0) tz)
    | .py v => pyToString v

/- ----------------- query construction ----------------- -/

def admissions_select_fields : List String :=
  ["cp_servicerequestdate",
   "cp_admissiondate",
   "cp_actualdischargedate",
   "cp_primarysubstanceused",
   "cp_othersubstances",
   "cp_contributingfactors",
   "cp_incomesource",
   "cp_reasonfordischargemdrate",
   "cp_reasonforhospitaladmissionmdrate",
   "cp_postdischargereferral",
   "cp_detoxtype",
   "cp_medicaldischargedate",
   "cp_pseudoname",
   "_cp_opioidagonisttherapy_value"]

def contact_select_fields : List String :=
  ["cp_ahcnumber",
   "cp_clientoutofprovince",
   "address1_postalcode",
   "cp_gender",
   "cp_age",
   "cp_mrpnumber"]

def admissions_select : String := String.intercalate "," admissions_select_fields

def contact_select : String := String.intercalate "," contact_select_fields

def filter_str (start_z end_z : String) : String :=
  "cp_actualdischargedate ge " ++ start_z ++ " and cp_actualdischargedate lt " ++ end_z

def expand_str : String := "cp_Client($select=" ++ contact_select ++ ")"

/-- The query parameters of the single admissions GET. -/
def admissions_params (start_z end_z : String) : List (String × String) :=
  [("$select", admissions_select),
   ("$filter", filter_str start_z end_z),
   ("$expand", expand_str)]

/- ----------------- HTTP outcomes and the handler ----------------- -/

/-- Outcome of `cca.acquire_token_for_client`: the fields the handler reads. -/
structure TokenResult where
  access_token : Option String
  error_description : Option String

/-- Outcome of the admissions GET: a raised transport exception, or a response
with its status, text, and the parsed `value` list (`none` when `.json()`
raises). -/
inductive QueryOutcome where
  | exc (msg : String)
  | resp (status : Nat) (text : String) (valueList : Option (List Dict))

/-- Outcome of the substance-lookup GET, keyed by sanitized GUID. -/
inductive LookupOutcome where
  | exc
  | resp (status : Nat) (valueList : Option (List Dict))

/-- What `get_mdrate` produces: an HTTP response, or an uncaught exception
propagating out of the handler. -/
inductive HandlerResult where
  | errorResp (status : Nat) (msg : String)
  | okResp (medical_report social_report : String)
  | raised
deriving DecidableEq, Repr

/-- `fetch_substance_name(substance_guid)`: empty name for an id sanitizing to
`""`; otherwise one GET.  A non-200 status or an unparseable/empty body yields
`""`; the `requests.get` call itself is NOT inside a try, so a transport
exception escapes (`Except.error`). -/
def fetch_substance_name (lookupHttp : String → LookupOutcome)
    (substance_guid : PyVal) : Except Unit PyVal :=
  let guid := sanitize_guid substance_guid
  if guid = "" then .ok (.str "")
  else match lookupHttp guid with
    | .exc => .error ()
    | .resp status valueList =>
        if status = 200 then
          match valueList with
          | Option.none => .ok (.str "")
          | some [] => .ok (.str "")
          | some (item :: _) => .ok (dictGetD item "cp_nameofsubstance" (.str ""))
        else .ok (.str "")

/-- `is_med`: `detoxtype == 121570000 or (detoxtype == 121570001 and med_disc is not None)`. -/
def is_med_rec (rec : Dict) : Bool :=
  pyEqInt (dictGet rec "cp_detoxtype") 121570000 ||
  (pyEqInt (dictGet rec "cp_detoxtype") 121570001 &&
    !(pyIsNone (dictGet rec "cp_medicaldischargedate")))

/-- `is_soc`: `detoxtype == 121570001 and med_disc is None`. -/
def is_soc_rec (rec : Dict) : Bool :=
  pyEqInt (dictGet rec "cp_detoxtype") 121570001 &&
    pyIsNone (dictGet rec "cp_medicaldischargedate")

/-- `contact = rec.get("cp_Client") or {}` (the expansion yields an object or
null; a falsy value — absent key, null, empty object — becomes `{}`). -/
def resolveContact (rec : Dict) : Dict :=
  match dictGet rec "cp_Client" with
  | .dict d => if d.isEmpty then [] else d
  | _ => []

/-- The 18 cell values of one output row, in column order. -/
def buildVals (parseIso : IsoParse) (tz : Tz) (rec contact : Dict)
    (opioid_name : PyVal) : List PyVal :=
  let contributing := normalize_multichoice (get_value rec "cp_contributingfactors")
  let post_referrals := normalize_multichoice (get_value rec "cp_postdischargereferral")
  let srd_raw := dictGet rec "cp_servicerequestdate"
  let adm_raw := dictGet rec "cp_admissiondate"
  let disc_raw := dictGet rec "cp_actualdischargedate"
  [get_value contact "cp_ahcnumber",
   get_value contact "cp_clientoutofprovince",
   get_value rec "cp_pseudoname",
   .str (utc_to_calgary_str parseIso tz (dtInputOfPy srd_raw)),
   .str (utc_to_calgary_str parseIso tz (dtInputOfPy adm_raw)),
   .str (utc_to_calgary_str parseIso tz (dtInputOfPy disc_raw)),
   get_value contact "address1_postalcode",
   get_value contact "cp_gender",
   get_value contact "cp_age",
   get_value rec "cp_primarysubstanceused",
   get_value rec "cp_othersubstances",
   contributing,
   get_value rec "cp_incomesource",
   opioid_name,
   get_value rec "cp_reasonfordischargemdrate",
   get_value rec "cp_reasonforhospitaladmissionmdrate",
   post_referrals,
   get_value contact "cp_mrpnumber"]

/-- `line = "\t".join(fmt_cell(v) for v in vals) + "\n "`. -/
def buildLine (parseIso : IsoParse) (tz : Tz) (rec contact : Dict)
    (opioid_name : PyVal) : String :=
  String.intercalate "\t" ((buildVals parseIso tz rec contact opioid_name).map fmt_cell)
    ++ "\n "

/-- One iteration of the record loop: `none` when the record qualifies for
neither bucket (`continue`, before any lookup), else the rendered line with its
`(is_med, is_soc)` flags; the substance lookup may raise. -/
def processRecord (parseIso : IsoParse) (tz : Tz)
    (lookupHttp : String → LookupOutcome) (rec : Dict) :
    Except Unit (Option (String × Bool × Bool)) :=
  if !(is_med_rec rec || is_soc_rec rec) then .ok Option.none
  else
    match fetch_substance_name lookupHttp (dictGet rec "_cp_opioidagonisttherapy_value") with
    | .error e => .error e
    | .ok opioid_name =>
        .ok (some (buildLine parseIso tz rec (resolveContact rec) opioid_name,
                   is_med_rec rec, is_soc_rec rec))

/-- The whole record loop: the `(medical_rows, social_rows)` accumulators. -/
def processRecords (parseIso : IsoParse) (tz : Tz)
    (lookupHttp : String → LookupOutcome) :
    List Dict → Except Unit (List String × List String)
  | [] => .ok ([], [])
  | rec :: rest =>
      match processRecord parseIso tz lookupHttp rec with
      | .error e => .error e
      | .ok r =>
          match processRecords parseIso tz lookupHttp rest with
          | .error e => .error e
          | .ok (m, s) =>
              match r with
              | Option.none => .ok (m, s)
              | some (line, im, isc) =>
                  .ok ((if im then line :: m else m), (if isc then line :: s else s))

/-- The fixed tab-separated report header. -/
def headerStr : String :=
  "Personal Health Number\tOut of Province\tPseudo Name\tService Request Date\tAdmission Date\t" ++
  "Discharge Date\tPostal Code\tGender\tAge in Years\tPrimary Substance\tOther Substances\t" ++
  "Contributing Factors\tIncome Source\tOpioid Agonist Therapy\tReason for Discharge\t" ++
  "Reason for Hospital Admission\tPost-discharge Referrals\tMRP Client ID (for sites using MRP)"

/-- `header + "\n " + ("".join(rows) if rows else "")`. -/
def renderReport (rows : List String) : String :=
  headerStr ++ "\n " ++ (if rows.isEmpty then "" else String.join rows)

/-- `f"Missing environment variable: {ke}"` — `str` of a `KeyError` renders the
key in quotes. -/
def configErrorMsg (key : String) : String :=
  "Missing environment variable: \x27" ++ key ++ "\x27"

/-- The handler `get_mdrate`, as a pure function of the environment and of the
outcomes of its outbound calls (token acquisition, admissions query, per-GUID
substance lookups).  The URLs and headers built from the config feed only those
outbound calls, which the outcome parameters abstract. -/
def get_mdrate (parseIso : IsoParse) (tz : Tz) (env : String → Option String)
    (token : TokenResult) (query : QueryOutcome)
    (lookupHttp : String → LookupOutcome) : HandlerResult :=
  match env "TENANT_ID" with
  | Option.none => .errorResp 500 (configErrorMsg "TENANT_ID")
  | some _ =>
  match env "CLIENT_ID" with
  | Option.none => .errorResp 500 (configErrorMsg "CLIENT_ID")
  | some _ =>
  match env "CLIENT_SECRET" with
  | Option.none => .errorResp 500 (configErrorMsg "CLIENT_SECRET")
  | some _ =>
  match env "DATAVERSE_URL" with
  | Option.none => .errorResp 500 (configErrorMsg "DATAVERSE_URL")
  | some _ =>
  match token.access_token with
  | Option.none =>
      .errorResp 500 ("Auth error: " ++ token.error_description.getD "Failed to acquire token")
  | some _ =>
  match query with
  | .exc msg => .errorResp 500 ("Dataverse query error: " ++ msg)
  | .resp status text valueList =>
      if status ≠ 200 then .errorResp 500 ("Dataverse query failed: " ++ text)
      else match valueList with
        | Option.none => .errorResp 500 "Failed to parse admissions JSON."
        | some admissions =>
            match processRecords parseIso tz lookupHttp admissions with
            | .error _ => .raised
            | .ok (medical_rows, social_rows) =>
                .okResp (renderReport medical_rows) (renderReport social_rows)

/- ----------------- concrete sample inputs for witnesses ----------------- -/

/-- An ISO-parse oracle that rejects everything. -/
def pIso0 : IsoParse := fun _ => Option.none

/-- An ISO-parse oracle recognizing one aware UTC instant. -/
def pIsoJun : IsoParse := fun s =>
  if s = "2024-06-15T18:30:00+00:00" then some (⟨2024, 6, 15, 18, 30, 0⟩, some 0)
  else Option.none

def tz0 : Tz := fun _ => 0

def tzM7 : Tz := fixedOffsetTz (-(7 * 60))

def lkOk : String → LookupOutcome := fun _ => .resp 200 (some [])

def lkName : String → LookupOutcome :=
  fun _ => .resp 200 (some [[("cp_nameofsubstance", .str "Methadone")]])

def lk404 : String → LookupOutcome := fun _ => .resp 404 (some [])

def lkExc : String → LookupOutcome := fun _ => .exc

def envAll : String → Option String := fun _ => some "x"

def envNone : String → Option String := fun _ => Option.none

def envMissingSecret : String → Option String := fun k =>
  if k = "TENANT_ID" then some "t"
  else if k = "CLIENT_ID" then some "c"
  else Option.none

def tokenOk : TokenResult := ⟨some "tok", Option.none⟩

def sampleGuid : String := "3FA85F64-5717-4562-B3FC-2C963F66AFA6"

def recA : Dict := [("cp_detoxtype", .int 121570000)]

def recAdated : Dict :=
  [("cp_detoxtype", .int 121570000),
   ("cp_medicaldischargedate", .str "2024-06-15T18:30:00Z")]

def recBmed : Dict :=
  [("cp_detoxtype", .int 121570001),
   ("cp_medicaldischargedate", .str "2024-06-15T18:30:00Z")]

def recBsoc : Dict := [("cp_detoxtype", .int 121570001)]

def recUnknown : Dict := [("cp_detoxtype", .int 121570002)]

def recNullClient : Dict :=
  [("cp_detoxtype", .int 121570001), ("cp_Client", .none)]

def recOpioid : Dict :=
  [("cp_detoxtype", .int 121570000),
   ("_cp_opioidagonisttherapy_value", .str sampleGuid)]

/- ----------------- shared lemmas ----------------- -/

theorem strAppendAssoc (a b c : String) : a ++ b ++ c = a ++ (b ++ c) := by
  cases a with | mk la =>
  cases b with | mk lb =>
  cases c with | mk lc =>
  show String.mk (la ++ lb ++ lc) = String.mk (la ++ (lb ++ lc))
  exact congrArg String.mk (List.append_assoc la lb lc)

theorem strAppendEmpty (s : String) : s ++ "" = s := by
  cases s with | mk l =>
  show String.mk (l ++ []) = String.mk l
  exact congrArg String.mk (List.append_nil l)

/-- A Python value equals at most one int under `==`. -/
theorem pyEqInt_unique {v : PyVal} {a b : Int}
    (ha : pyEqInt v a = true) (hb : pyEqInt v b = true) : a = b := by
  cases v with
  | none => simp [pyEqInt] at ha
  | bool bb => cases bb <;> simp [pyEqInt] at ha hb <;> omega
  | int n => simp [pyEqInt] at ha hb; omega
  | str s => simp [pyEqInt] at ha
  | dict d => simp [pyEqInt] at ha

theorem strftimeZ_first_of_month (y m : Nat) :
    strftimeZ ⟨y, m, 1, 0, 0, 0⟩ = pad4 y ++ "-" ++ pad2 m ++ "-01T00:00:00Z" := by
  show pad4 y ++ "-" ++ pad2 m ++ "-" ++ pad2 1 ++ "T" ++ pad2 0 ++ ":" ++ pad2 0 ++
      ":" ++ pad2 0 ++ "Z" = _
  simp only [strAppendAssoc]
  congr 1

/- ----------------- claims ----------------- -/

/-- C8: `normalize_multichoice` maps `"A; B;  C "` to `"A, B, C"` (split on
semicolons, trim, drop empties, join with comma-space), maps `""` to `""`,
and maps null to null. -/
theorem normalize_multichoice_spec :
    normalize_multichoice (.str "A; B;  C ") = .str "A, B, C" ∧
    normalize_multichoice (.str "") = .str "" ∧
    normalize_multichoice .none = .none :=
  ⟨rfl, rfl, rfl⟩

/-- C4 counterexample: the admissions `$select` list has 14 fields
(`_cp_opioidagonisttherapy_value` included), not 13. -/
theorem admissions_select_not_13 : admissions_select_fields.length ≠ 13 := by
  decide

set_option maxRecDepth 8192 in
/-- C4 amended: the single admissions GET carries a `$select` of exactly 14
admission fields, a `$filter` requiring `cp_actualdischargedate` at or after
the window start (`ge`) and strictly before the window end (`lt`), and a
`$expand` of `cp_Client` restricted to exactly 6 contact fields. -/
theorem admissions_request_shape :
    admissions_select_fields.length = 14 ∧
    contact_select_fields.length = 6 ∧
    (∀ s e : String, admissions_params s e =
      [("$select",
        "cp_servicerequestdate,cp_admissiondate,cp_actualdischargedate," ++
        "cp_primarysubstanceused,cp_othersubstances,cp_contributingfactors," ++
        "cp_incomesource,cp_reasonfordischargemdrate," ++
        "cp_reasonforhospitaladmissionmdrate,cp_postdischargereferral," ++
        "cp_detoxtype,cp_medicaldischargedate,cp_pseudoname," ++
        "_cp_opioidagonisttherapy_value"),
       ("$filter",
        "cp_actualdischargedate ge " ++ s ++ " and cp_actualdischargedate lt " ++ e),
       ("$expand",
        "cp_Client($select=cp_ahcnumber,cp_clientoutofprovince," ++
        "address1_postalcode,cp_gender,cp_age,cp_mrpnumber)")]) :=
  ⟨by decide, by decide, fun s e => rfl⟩

/-- C3: for a calendar-valid `now`, the previous-month resolver returns the
first instant of the prior month (inclusive start) and the first instant of
the current month (exclusive end), serialized `YYYY-MM-DDTHH:MM:SSZ`, with
January rolling back to December of the previous year. -/
theorem last_month_bounds_correct (now : PDateTime)
    (h1 : 1 ≤ now.month) (h2 : now.month ≤ 12) :
    last_month_bounds_utc now =
      ((if now.month = 1
         then pad4 (now.year - 1) ++ "-" ++ pad2 12 ++ "-01T00:00:00Z"
         else pad4 now.year ++ "-" ++ pad2 (now.month - 1) ++ "-01T00:00:00Z"),
       pad4 now.year ++ "-" ++ pad2 now.month ++ "-01T00:00:00Z") := by
  obtain ⟨y, m, d, hh, mi, s⟩ := now
  by_cases hm : m = 1
  · subst hm
    simp [last_month_bounds_utc, strftimeZ_first_of_month]
  · simp [last_month_bounds_utc, hm, strftimeZ_first_of_month]

/-- One qualifying record lands in the bucket(s) its flags select. -/
theorem processRecords_singleton (parseIso : IsoParse) (tz : Tz)
    (lookupHttp : String → LookupOutcome) (rec : Dict) (nm : PyVal)
    (hq : (is_med_rec rec || is_soc_rec rec) = true)
    (hf : fetch_substance_name lookupHttp (dictGet rec "_cp_opioidagonisttherapy_value") = .ok nm) :
    processRecords parseIso tz lookupHttp [rec] =
      .ok ((if is_med_rec rec then [buildLine parseIso tz rec (resolveContact rec) nm] else []),
           (if is_soc_rec rec then [buildLine parseIso tz rec (resolveContact rec) nm] else [])) := by
  simp [processRecords, processRecord, hq, hf]

/-- A record qualifying for neither bucket is dropped, with no lookup made. -/
theorem processRecords_singleton_skip (parseIso : IsoParse) (tz : Tz)
    (lookupHttp : String → LookupOutcome) (rec : Dict)
    (hq : (is_med_rec rec || is_soc_rec rec) = false) :
    processRecords parseIso tz lookupHttp [rec] = .ok ([], []) := by
  simp [processRecords, processRecord, hq]

/-- C1: the current-variant classifier puts a `detoxType = 121570000` record in
the medical bucket only (regardless of `medicalDischargeDate`); a
`detoxType = 121570001` record with `medicalDischargeDate` present in the
medical bucket only; with it absent in the social bucket only; and a record
with any other `detoxType` in neither bucket, dropped without error even when
the lookup would fail. -/
theorem classifier_current_variant (parseIso : IsoParse) (tz : Tz)
    (lookupHttp : String → LookupOutcome) (rec : Dict) :
    (pyEqInt (dictGet rec "cp_detoxtype") 121570000 = true →
      is_med_rec rec = true ∧ is_soc_rec rec = false ∧
      (∀ nm, fetch_substance_name lookupHttp (dictGet rec "_cp_opioidagonisttherapy_value") = .ok nm →
        processRecords parseIso tz lookupHttp [rec] =
          .ok ([buildLine parseIso tz rec (resolveContact rec) nm], []))) ∧
    (pyEqInt (dictGet rec "cp_detoxtype") 121570001 = true →
      pyIsNone (dictGet rec "cp_medicaldischargedate") = false →
      is_med_rec rec = true ∧ is_soc_rec rec = false ∧
      (∀ nm, fetch_substance_name lookupHttp (dictGet rec "_cp_opioidagonisttherapy_value") = .ok nm →
        processRecords parseIso tz lookupHttp [rec] =
          .ok ([buildLine parseIso tz rec (resolveContact rec) nm], []))) ∧
    (pyEqInt (dictGet rec "cp_detoxtype") 121570001 = true →
      pyIsNone (dictGet rec "cp_medicaldischargedate") = true →
      is_med_rec rec = false ∧ is_soc_rec rec = true ∧
      (∀ nm, fetch_substance_name lookupHttp (dictGet rec "_cp_opioidagonisttherapy_value") = .ok nm →
        processRecords parseIso tz lookupHttp [rec] =
          .ok ([], [buildLine parseIso tz rec (resolveContact rec) nm]))) ∧
    (pyEqInt (dictGet rec "cp_detoxtype") 121570000 = false →
      pyEqInt (dictGet rec "cp_detoxtype") 121570001 = false →
      is_med_rec rec = false ∧ is_soc_rec rec = false ∧
      processRecords parseIso tz lookupHttp [rec] = .ok ([], [])) := by
  have hAB : ∀ {a b : Int}, pyEqInt (dictGet rec "cp_detoxtype") a = true → a ≠ b →
      pyEqInt (dictGet rec "cp_detoxtype") b = false := by
    intro a b ha hne
    cases hb : pyEqInt (dictGet rec "cp_detoxtype") b
    · rfl
    · exact absurd (pyEqInt_unique ha hb) hne
  refine ⟨?_, ?_, ?_, ?_⟩
  · intro hA
    have hB : pyEqInt (dictGet rec "cp_detoxtype") 121570001 = false := hAB hA (by decide)
    have hm : is_med_rec rec = true := by simp [is_med_rec, hA]
    have hs : is_soc_rec rec = false := by simp [is_soc_rec, hB]
    refine ⟨hm, hs, fun nm hf => ?_⟩
    rw [processRecords_singleton parseIso tz lookupHttp rec nm (by simp [hm]) hf]
    simp [hm, hs]
  · intro hB hmd
    have hm : is_med_rec rec = true := by simp [is_med_rec, hB, hmd]
    have hs : is_soc_rec rec = false := by simp [is_soc_rec, hmd]
    refine ⟨hm, hs, fun nm hf => ?_⟩
    rw [processRecords_singleton parseIso tz lookupHttp rec nm (by simp [hm]) hf]
    simp [hm, hs]
  · intro hB hmd
    have hA : pyEqInt (dictGet rec "cp_detoxtype") 121570000 = false := hAB hB (by decide)
    have hm : is_med_rec rec = false := by simp [is_med_rec, hA, hmd]
    have hs : is_soc_rec rec = true := by simp [is_soc_rec, hB, hmd]
    refine ⟨hm, hs, fun nm hf => ?_⟩
    rw [processRecords_singleton parseIso tz lookupHttp rec nm (by simp [hs]) hf]
    simp [hm, hs]
  · intro hA hB
    have hm : is_med_rec rec = false := by simp [is_med_rec, hA, hB]
    have hs : is_soc_rec rec = false := by simp [is_soc_rec, hB]
    exact ⟨hm, hs, processRecords_singleton_skip parseIso tz lookupHttp rec (by simp [hm, hs])⟩

/-- C1 witness: the four classifier cases at concrete records (the neither
case with a lookup that would raise). -/
theorem classifier_current_variant_witness :
    processRecords pIso0 tz0 lkOk [recA] =
      .ok ([buildLine pIso0 tz0 recA (resolveContact recA) (.str "")], []) ∧
    processRecords pIso0 tz0 lkOk [recBmed] =
      .ok ([buildLine pIso0 tz0 recBmed (resolveContact recBmed) (.str "")], []) ∧
    processRecords pIso0 tz0 lkOk [recBsoc] =
      .ok ([], [buildLine pIso0 tz0 recBsoc (resolveContact recBsoc) (.str "")]) ∧
    processRecords pIso0 tz0 lkExc [recUnknown] = .ok ([], []) := by
  refine ⟨?_, ?_, ?_, ?_⟩
  · exact ((classifier_current_variant pIso0 tz0 lkOk recA).1 rfl).2.2 (.str "") rfl
  · exact ((classifier_current_variant pIso0 tz0 lkOk recBmed).2.1 rfl rfl).2.2 (.str "") rfl
  · exact ((classifier_current_variant pIso0 tz0 lkOk recBsoc).2.2.1 rfl rfl).2.2 (.str "") rfl
  · exact ((classifier_current_variant pIso0 tz0 lkExc recUnknown).2.2.2 rfl rfl).2.2

/-- C9: the medical and the social predicate are never both true of one
record, so a processed record's row flags mark at most one bucket. -/
theorem med_soc_mutually_exclusive (rec : Dict) :
    (is_med_rec rec && is_soc_rec rec) = false ∧
    (∀ (parseIso : IsoParse) (tz : Tz) (lookupHttp : String → LookupOutcome)
        (line : String) (im isc : Bool),
      processRecord parseIso tz lookupHttp rec = .ok (some (line, im, isc)) →
      (im && isc) = false) := by
  have h1 : (is_med_rec rec && is_soc_rec rec) = false := by
    cases hA : pyEqInt (dictGet rec "cp_detoxtype") 121570000 <;>
    cases hB : pyEqInt (dictGet rec "cp_detoxtype") 121570001 <;>
    cases hN : pyIsNone (dictGet rec "cp_medicaldischargedate") <;>
      simp [is_med_rec, is_soc_rec, hA, hB, hN]
    exact absurd (pyEqInt_unique hA hB) (by decide)
  refine ⟨h1, fun parseIso tz lookupHttp line im isc hpr => ?_⟩
  cases hq : (is_med_rec rec || is_soc_rec rec) with
  | false => simp [processRecord, hq] at hpr
  | true =>
    cases hf : fetch_substance_name lookupHttp (dictGet rec "_cp_opioidagonisttherapy_value") with
    | error e => simp [processRecord, hq, hf] at hpr
    | ok nm =>
      simp [processRecord, hq, hf] at hpr
      obtain ⟨hl, him, hisc⟩ := hpr
      rw [← him, ← hisc]
      exact h1

/-- C9 witness: a concrete medical-only record carries flags `(true, false)`. -/
theorem med_soc_mutually_exclusive_witness :
    (is_med_rec recA && is_soc_rec recA) = false ∧ (true && false) = false := by
  refine ⟨(med_soc_mutually_exclusive recA).1, ?_⟩
  exact (med_soc_mutually_exclusive recA).2 pIso0 tz0 lkOk
    (buildLine pIso0 tz0 recA (resolveContact recA) (.str "")) true false rfl

set_option maxRecDepth 8192 in
/-- C2 counterexample: with a valid opioid reference id present, a transport
exception in the substance lookup escapes `fetch_substance_name` (no `try`
wraps that `requests.get`), and it propagates out of the whole handler. -/
theorem lookup_exception_propagates :
    fetch_substance_name lkExc (.str sampleGuid) = .error () ∧
    get_mdrate pIso0 tz0 envAll tokenOk (.resp 200 "" (some [recOpioid])) lkExc =
      .raised :=
  ⟨rfl, rfl⟩

/-- C2 amended: the substance lookup returns the empty string when the id is
absent (sanitizes to `""`) and for every completed response that is non-200,
unparseable, or an empty match list (a 200 with items yields the first item's
name); completed responses never raise — but a transport exception during the
lookup GET is uncaught and propagates out of the enclosing request. -/
theorem fetch_substance_name_amended (lookupHttp : String → LookupOutcome)
    (g : PyVal) :
    (sanitize_guid g = "" → fetch_substance_name lookupHttp g = .ok (.str "")) ∧
    (∀ status valueList, sanitize_guid g ≠ "" →
      lookupHttp (sanitize_guid g) = .resp status valueList →
      fetch_substance_name lookupHttp g =
        .ok (if status = 200 then
               match valueList with
               | some (item :: _) => dictGetD item "cp_nameofsubstance" (.str "")
               | _ => .str ""
             else .str "")) ∧
    (sanitize_guid g ≠ "" → lookupHttp (sanitize_guid g) = .exc →
      fetch_substance_name lookupHttp g = .error ()) := by
  refine ⟨fun h => by simp [fetch_substance_name, h],
          fun status valueList hne hresp => ?_,
          fun hne hexc => by simp [fetch_substance_name, hne, hexc]⟩
  simp only [fetch_substance_name, hne, if_neg hne, hresp]
  by_cases h200 : status = 200
  · cases valueList with
    | none => simp [h200]
    | some l => cases l <;> simp [h200]
  · simp [h200]

set_option maxRecDepth 8192 in
/-- C2 witness: absent id and non-200 response give `""`; a transport
exception gives an escaping error. -/
theorem fetch_substance_name_amended_witness :
    fetch_substance_name lk404 .none = .ok (.str "") ∧
    fetch_substance_name lk404 (.str sampleGuid) = .ok (.str "") ∧
    fetch_substance_name lkExc (.str sampleGuid) = .error () := by
  refine ⟨(fetch_substance_name_amended lk404 .none).1 rfl, ?_,
    (fetch_substance_name_amended lkExc (.str sampleGuid)).2.2 (by decide) rfl⟩
  have h := (fetch_substance_name_amended lk404 (.str sampleGuid)).2.1
    404 (some []) (by decide) rfl
  exact h.trans rfl

/-- C6: when any of the four required settings is missing, the handler returns
the 500 configuration error naming the first missing key, identically for
every token/query/lookup outcome — i.e. it fails before any token acquisition
or outbound call. -/
theorem config_missing_fails_first (parseIso : IsoParse) (tz : Tz)
    (env : String → Option String) (token token2 : TokenResult)
    (query query2 : QueryOutcome) (lookupHttp lookup2 : String → LookupOutcome) :
    (env "TENANT_ID" = Option.none →
      get_mdrate parseIso tz env token query lookupHttp =
        .errorResp 500 (configErrorMsg "TENANT_ID") ∧
      get_mdrate parseIso tz env token2 query2 lookup2 =
        .errorResp 500 (configErrorMsg "TENANT_ID")) ∧
    (env "TENANT_ID" ≠ Option.none → env "CLIENT_ID" = Option.none →
      get_mdrate parseIso tz env token query lookupHttp =
        .errorResp 500 (configErrorMsg "CLIENT_ID") ∧
      get_mdrate parseIso tz env token2 query2 lookup2 =
        .errorResp 500 (configErrorMsg "CLIENT_ID")) ∧
    (env "TENANT_ID" ≠ Option.none → env "CLIENT_ID" ≠ Option.none →
      env "CLIENT_SECRET" = Option.none →
      get_mdrate parseIso tz env token query lookupHttp =
        .errorResp 500 (configErrorMsg "CLIENT_SECRET") ∧
      get_mdrate parseIso tz env token2 query2 lookup2 =
        .errorResp 500 (configErrorMsg "CLIENT_SECRET")) ∧
    (env "TENANT_ID" ≠ Option.none → env "CLIENT_ID" ≠ Option.none →
      env "CLIENT_SECRET" ≠ Option.none → env "DATAVERSE_URL" = Option.none →
      get_mdrate parseIso tz env token query lookupHttp =
        .errorResp 500 (configErrorMsg "DATAVERSE_URL") ∧
      get_mdrate parseIso tz env token2 query2 lookup2 =
        .errorResp 500 (configErrorMsg "DATAVERSE_URL")) := by
  refine ⟨fun hT => ?_, fun hT hC => ?_, fun hT hC hS => ?_, fun hT hC hS hU => ?_⟩
  · exact ⟨by simp [get_mdrate, hT], by simp [get_mdrate, hT]⟩
  · obtain ⟨t, ht⟩ := Option.ne_none_iff_exists'.mp hT
    exact ⟨by simp [get_mdrate, ht, hC], by simp [get_mdrate, ht, hC]⟩
  · obtain ⟨t, ht⟩ := Option.ne_none_iff_exists'.mp hT
    obtain ⟨c, hc⟩ := Option.ne_none_iff_exists'.mp hC
    exact ⟨by simp [get_mdrate, ht, hc, hS], by simp [get_mdrate, ht, hc, hS]⟩
  · obtain ⟨t, ht⟩ := Option.ne_none_iff_exists'.mp hT
    obtain ⟨c, hc⟩ := Option.ne_none_iff_exists'.mp hC
    obtain ⟨s, hs⟩ := Option.ne_none_iff_exists'.mp hS
    exact ⟨by simp [get_mdrate, ht, hc, hs, hU], by simp [get_mdrate, ht, hc, hs, hU]⟩

/-- C6 witness: with the secret missing, the handler reports it identically
under two very different oracle bundles (one of which would fail auth and the
query). -/
theorem config_missing_fails_first_witness :
    get_mdrate pIso0 tz0 envMissingSecret tokenOk (.resp 200 "" (some [])) lkOk =
      .errorResp 500 (configErrorMsg "CLIENT_SECRET") ∧
    get_mdrate pIso0 tz0 envMissingSecret ⟨Option.none, some "boom"⟩ (.exc "down") lkExc =
      .errorResp 500 (configErrorMsg "CLIENT_SECRET") :=
  (config_missing_fails_first pIso0 tz0 envMissingSecret tokenOk
      ⟨Option.none, some "boom"⟩ (.resp 200 "" (some [])) (.exc "down") lkOk lkExc).2.2.1
    (by decide) (by decide) rfl

set_option maxRecDepth 8192 in
/-- C3 witness: January 2024 rolls back to December 2023. -/
theorem last_month_bounds_correct_witness :
    last_month_bounds_utc ⟨2024, 1, 15, 10, 30, 45⟩ =
      ("2023-12-01T00:00:00Z", "2024-01-01T00:00:00Z") := by
  have h := last_month_bounds_correct ⟨2024, 1, 15, 10, 30, 45⟩ (by decide) (by decide)
  exact h.trans (by decide)

/-- C7 counterexample: an unparseable input carrying surrounding whitespace is
returned stripped (`except: return s` returns `dt_val.strip()`), not
unchanged. -/
theorem unparseable_returned_stripped :
    utc_to_calgary_str pIso0 tzM7 (.str "  not-a-date ") = "not-a-date" ∧
    ("  not-a-date " : String) ≠ "not-a-date" :=
  ⟨rfl, by decide⟩

/-- C7 amended: absent (null/empty) input yields "NA"; an unparseable string
is returned stripped of surrounding whitespace (hence unchanged when it has
none); a parseable UTC timestamp — a string ending in `Z`, a string lacking a
zone, or a naive datetime value — is converted to the configured zone and
rendered `MM/DD/YYYY hh:MM AM/PM`; and with neither timezone library
available the zone degrades to the fixed UTC-7 offset with no DST. -/
theorem utc_to_calgary_amended (parseIso : IsoParse) (tz : Tz) :
    (utc_to_calgary_str parseIso tz (.py .none) = "NA") ∧
    (utc_to_calgary_str parseIso tz (.str "") = "NA") ∧
    (∀ s, s ≠ "" → pyEndsWith (pyStrip s) "Z" = false →
      parseIso (pyStrip s) = Option.none →
      utc_to_calgary_str parseIso tz (.str s) = pyStrip s) ∧
    (∀ s, s ≠ "" → pyEndsWith (pyStrip s) "Z" = true →
      parseIso (pyReplace (pyStrip s) "Z" "+00:00") = Option.none →
      utc_to_calgary_str parseIso tz (.str s) = pyStrip s) ∧
    (∀ s d, s ≠ "" → pyEndsWith (pyStrip s) "Z" = true →
      parseIso (pyReplace (pyStrip s) "Z" "+00:00") = some (d, some 0) →
      utc_to_calgary_str parseIso tz (.str s) = strftimeAmPm (astimezone d 0 tz)) ∧
    (∀ s d, s ≠ "" → pyEndsWith (pyStrip s) "Z" = false →
      parseIso (pyStrip s) = some (d, Option.none) →
      utc_to_calgary_str parseIso tz (.str s) = strftimeAmPm (astimezone d 0 tz)) ∧
    (∀ d, utc_to_calgary_str parseIso tz (.dt d Option.none) =
      strftimeAmPm (astimezone d 0 tz)) ∧
    load_calgary_tz Option.none Option.none = fixedOffsetTz (-(7 * 60)) := by
  refine ⟨rfl, rfl, fun s h hz hp => ?_, fun s h hz hp => ?_,
    fun s d h hz hp => ?_, fun s d h hz hp => ?_, fun d => rfl, rfl⟩ <;>
    simp [utc_to_calgary_str, dtIsFalsy, h, hz, hp]

set_option maxRecDepth 8192 in
/-- C7 witness: null → "NA"; unparseable → stripped; a `Z`-suffixed UTC
instant renders 11:30 AM under the fixed UTC-7 fallback zone. -/
theorem utc_to_calgary_amended_witness :
    utc_to_calgary_str pIsoJun tzM7 (.py .none) = "NA" ∧
    utc_to_calgary_str pIsoJun tzM7 (.str "  garbage ") = "garbage" ∧
    utc_to_calgary_str pIsoJun tzM7 (.str "2024-06-15T18:30:00Z") =
      "06/15/2024 11:30 AM" ∧
    load_calgary_tz Option.none Option.none = fixedOffsetTz (-(7 * 60)) := by
  have h := utc_to_calgary_amended pIsoJun tzM7
  refine ⟨h.1, h.2.2.1 "  garbage " (by decide) rfl rfl, ?_, h.2.2.2.2.2.2.2⟩
  have hz := h.2.2.2.2.1 "2024-06-15T18:30:00Z" ⟨2024, 6, 15, 18, 30, 0⟩
    (by decide) rfl rfl
  exact hz.trans rfl

/-- Records qualifying for neither bucket leave both accumulators empty. -/
theorem processRecords_none_qualify (parseIso : IsoParse) (tz : Tz)
    (lookupHttp : String → LookupOutcome) (admissions : List Dict)
    (h : ∀ rec ∈ admissions, (is_med_rec rec || is_soc_rec rec) = false) :
    processRecords parseIso tz lookupHttp admissions = .ok ([], []) := by
  induction admissions with
  | nil => rfl
  | cons rec rest ih =>
      have hr := h rec (List.mem_cons_self rec rest)
      have hrest := ih (fun r hm => h r (List.mem_cons_of_mem rec hm))
      simp [processRecords, processRecord, hr, hrest]

set_option maxRecDepth 8192 in
/-- C5: every rendered data row is the record's 18 formatted cells joined by
tabs and terminated by a newline plus one trailing space; the fixed header has
18 tab-separated columns; and when zero records qualify the handler still
returns non-empty header-only text for both reports. -/
theorem rows_and_empty_reports (parseIso : IsoParse) (tz : Tz) :
    (∀ rec contact opioid_name,
      buildLine parseIso tz rec contact opioid_name =
        String.intercalate "\t"
          ((buildVals parseIso tz rec contact opioid_name).map fmt_cell) ++ "\n " ∧
      (buildVals parseIso tz rec contact opioid_name).length = 18) ∧
    (pySplit '\t' headerStr).length = 18 ∧
    headerStr ++ "\n " ≠ "" ∧
    (∀ env token (query_text : String) admissions lookupHttp,
      (env "TENANT_ID").isSome = true → (env "CLIENT_ID").isSome = true →
      (env "CLIENT_SECRET").isSome = true → (env "DATAVERSE_URL").isSome = true →
      token.access_token.isSome = true →
      (∀ rec ∈ admissions, (is_med_rec rec || is_soc_rec rec) = false) →
      get_mdrate parseIso tz env token (.resp 200 query_text (some admissions)) lookupHttp =
        .okResp (headerStr ++ "\n ") (headerStr ++ "\n ")) := by
  refine ⟨fun rec contact opioid_name => ⟨rfl, by simp [buildVals]⟩,
    by decide, by decide, ?_⟩
  intro env token qt admissions lookupHttp hT hC hS hU htok hnone
  obtain ⟨t, ht⟩ := Option.isSome_iff_exists.mp hT
  obtain ⟨c, hc⟩ := Option.isSome_iff_exists.mp hC
  obtain ⟨sv, hs⟩ := Option.isSome_iff_exists.mp hS
  obtain ⟨u, hu⟩ := Option.isSome_iff_exists.mp hU
  obtain ⟨tk, htk⟩ := Option.isSome_iff_exists.mp htok
  simp [get_mdrate, ht, hc, hs, hu, htk,
    processRecords_none_qualify parseIso tz lookupHttp admissions hnone,
    renderReport, strAppendEmpty]

set_option maxRecDepth 8192 in
/-- C5 witness: the row shape at a concrete record, and header-only reports
for an empty admissions list. -/
theorem rows_and_empty_reports_witness :
    buildLine pIso0 tz0 recA [] (.str "") =
      String.intercalate "\t"
        ((buildVals pIso0 tz0 recA [] (.str "")).map fmt_cell) ++ "\n " ∧
    get_mdrate pIso0 tz0 envAll tokenOk (.resp 200 "" (some [])) lkOk =
      .okResp (headerStr ++ "\n ") (headerStr ++ "\n ") := by
  have h := rows_and_empty_reports pIso0 tz0
  exact ⟨(h.1 recA [] (.str "")).1,
    h.2.2.2 envAll tokenOk "" [] lkOk rfl rfl rfl rfl rfl (by simp)⟩

/-- C10: when the expanded contact entity is absent or null, every contact
field access returns the empty string and all six contact-derived columns
(Personal Health Number, Out of Province, Postal Code, Gender, Age, MRP
number — positions 0, 1, 6, 7, 8, 17) render "NA"; row construction does not
fail. -/
theorem null_contact_renders_na (parseIso : IsoParse) (tz : Tz) (rec : Dict)
    (opioid_name : PyVal) (h : dictGet rec "cp_Client" = .none) :
    resolveContact rec = [] ∧
    (∀ f, get_value [] f = .str "") ∧
    (∀ f, fmt_cell (get_value (resolveContact rec) f) = "NA") ∧
    (((buildVals parseIso tz rec (resolveContact rec) opioid_name).map fmt_cell)[0]? =
        some "NA" ∧
     ((buildVals parseIso tz rec (resolveContact rec) opioid_name).map fmt_cell)[1]? =
        some "NA" ∧
     ((buildVals parseIso tz rec (resolveContact rec) opioid_name).map fmt_cell)[6]? =
        some "NA" ∧
     ((buildVals parseIso tz rec (resolveContact rec) opioid_name).map fmt_cell)[7]? =
        some "NA" ∧
     ((buildVals parseIso tz rec (resolveContact rec) opioid_name).map fmt_cell)[8]? =
        some "NA" ∧
     ((buildVals parseIso tz rec (resolveContact rec) opioid_name).map fmt_cell)[17]? =
        some "NA") := by
  have hrc : resolveContact rec = [] := by simp [resolveContact, h]
  have hgv : ∀ f, get_value [] f = .str "" := fun f => by simp [get_value]
  refine ⟨hrc, hgv, fun f => by rw [hrc, hgv]; rfl, ?_⟩
  rw [hrc]
  simp [buildVals, get_value, fmt_cell, pyIsNone, pyEqEmptyStr]

/-- C10 witness: a record whose `cp_Client` is null renders "NA" in the
contact columns. -/
theorem null_contact_renders_na_witness :
    resolveContact recNullClient = [] ∧
    fmt_cell (get_value (resolveContact recNullClient) "cp_gender") = "NA" ∧
    ((buildVals pIso0 tz0 recNullClient (resolveContact recNullClient)
        (.str "Methadone")).map fmt_cell)[0]? = some "NA" := by
  have h := null_contact_renders_na pIso0 tz0 recNullClient (.str "Methadone") rfl
  exact ⟨h.1, h.2.2.1 "cp_gender", h.2.2.2.1⟩

end MDRate
